import Mathlib

/-!
Verification development for the network discovery / monitoring subsystem.

Shallow embedding of:
- `src/core/server_discovery.py` (class `ServerDiscovery`): network sweep,
  SSH connect/disconnect registry, remote metrics parsing
  (`_get_system_info`), configuration save/load.
- `src/core/network_discovery.py` (class `NetworkDiscovery`): per-field
  remote metrics getters, `get_server_status`, the monitoring loop tick.
- `src/utils/quick_network_scanner.py` (class `QuickNetworkScanner`):
  batched quick scan.

Modelling conventions:
- Command outputs arrive as already-whitespace-tokenised strings
  (Python's `str.split()` applied); an empty token list models output whose
  `strip()` is falsy.  Multi-line outputs are lists of token lists.
- Python `float(s)` / `int(s)` are modelled by `pyFloat?` / `pyInt?` over
  decimal literals (optional sign, digits, one optional point); they return
  `none` exactly when the Python call raises `ValueError` on such tokens.
- Python exception control flow is modelled with `Except String`; a
  caught exception corresponds to matching on `.error`.
- Network and process I/O (ping replies, SSH exit codes, command stdout,
  timestamps) are inputs to the embedded functions, since the Python code
  consumes them as opaque results of subprocess/paramiko calls.
-/

/-- One decimal digit to its value, `none` on a non-digit character. -/
def digitVal? (c : Char) : Option ℕ :=
  if '0' ≤ c ∧ c ≤ '9' then some (c.toNat - '0'.toNat) else none

/-- Parse a nonempty all-digit character list as a natural number. -/
def parseDigits? (cs : List Char) : Option ℕ :=
  if cs.isEmpty then none
  else cs.foldlM (fun acc c => (digitVal? c).map (fun d => acc * 10 + d)) 0

/-- Python `int(s)` on a whitespace-free token: optional sign then digits;
`none` models a raised `ValueError`. -/
def pyInt? (s : String) : Option ℤ :=
  match s.toList with
  | '-' :: rest => (parseDigits? rest).map (fun n => -(n : ℤ))
  | '+' :: rest => (parseDigits? rest).map (fun n => (n : ℤ))
  | cs => (parseDigits? cs).map (fun n => (n : ℤ))

/-- Fractional and integral split of a decimal literal body: digits with at
most one point, at least one digit overall. -/
def parseDecimal? (cs : List Char) : Option ℚ :=
  let intPart := cs.takeWhile (fun c => c ≠ '.')
  match cs.dropWhile (fun c => c ≠ '.') with
  | [] => (parseDigits? intPart).map (fun n => (n : ℚ))
  | _ :: fracPart =>
    if fracPart.any (fun c => c = '.') then none
    else if intPart.isEmpty ∧ fracPart.isEmpty then none
    else
      match (if intPart.isEmpty then some 0 else parseDigits? intPart),
            (if fracPart.isEmpty then some 0 else parseDigits? fracPart) with
      | some a, some b => some ((a : ℚ) + (b : ℚ) / ((10 : ℚ) ^ fracPart.length))
      | _, _ => none

/-- Python `float(s)` on a whitespace-free token, restricted to plain
decimal literals (optional sign, digits, optional single point); `none`
models a raised `ValueError`. -/
def pyFloat? (s : String) : Option ℚ :=
  match s.toList with
  | '-' :: rest => (parseDecimal? rest).map (fun q => -q)
  | '+' :: rest => parseDecimal? rest
  | cs => parseDecimal? cs

/-- Python `s.rstrip(chr)` for the percent sign: drop all trailing `%`. -/
def rstripPct (s : String) : String :=
  String.mk ((s.toList.reverse.dropWhile (fun c => c = '%')).reverse)

/-- `float()` in exception-style: `ValueError` becomes `.error`. -/
def pyFloatE (s : String) : Except String ℚ :=
  match pyFloat? s with
  | some q => .ok q
  | none => .error "ValueError"

/-- `int()` in exception-style: `ValueError` becomes `.error`. -/
def pyIntE (s : String) : Except String ℤ :=
  match pyInt? s with
  | some n => .ok n
  | none => .error "ValueError"

/-! ## `ServerDiscovery._get_system_info` (src/core/server_discovery.py:249-395) -/

/-- `memory_info` dict built from the `free | grep Mem` line. -/
structure MemInfo where
  total_mb : ℤ
  used_mb : ℤ
  free_mb : ℤ
  percent : ℚ
deriving DecidableEq, Repr

/-- `disk_info` dict built from the `df -h / | tail -1` line. -/
structure DiskInfo where
  total : String
  used : String
  available : String
  percent : ℤ
deriving DecidableEq, Repr

/-- One entry of `disk_partitions`. -/
structure PartitionInfo where
  device : String
  mountpoint : String
  fstype : String
  usage : DiskInfo
deriving DecidableEq, Repr

/-- One entry of `processes` from the `ps aux --sort=-%cpu` listing. -/
structure ProcEntry where
  pid : ℤ
  name : String
  cpu_percent : ℚ
  memory_percent : ℚ
  procStatus : String
deriving DecidableEq, Repr

/-- The dict returned by `_get_system_info`; `err` models the `error` key
present only in the exception-path return value. -/
structure SysInfo where
  cpu_percent : ℚ
  memory_percent : ℚ
  disk_percent : ℤ
  load_avg : ℚ
  memory_info : Option MemInfo
  disk_info : Option DiskInfo
  disk_partitions : List PartitionInfo
  processes : List ProcEntry
  err : Option String
deriving DecidableEq, Repr

/-- Tokenised stdout of the six remote commands run by `_get_system_info`
(`mpstat`, `free`, `df /`, `df` partition lines, `ps aux` lines,
`/proc/loadavg`). -/
structure SysOutputs where
  cpuOut : List String
  memOut : List String
  diskOut : List String
  partLines : List (List String)
  procLines : List (List String)
  loadOut : List String
deriving DecidableEq, Repr

/-- CPU parse of `_get_system_info` (lines 264-272): on nonempty `mpstat`
output with at least 12 fields, `cpu_usage = 100.0 - float(parts[11])`;
the `float` call may raise. -/
def parseCpuE (toks : List String) : Except String ℚ :=
  if toks.isEmpty then .ok 0
  else if 12 ≤ toks.length then
    match pyFloatE (toks.getD 11 "") with
    | .error e => .error e
    | .ok idle => .ok (100 - idle)
  else .ok 0

/-- Memory parse of `_get_system_info` (lines 282-297): `int(parts[1..3])`
may raise; `//1024//1024` is Python floor division. -/
def parseMemE (toks : List String) : Except String (Option MemInfo) :=
  if toks.isEmpty then .ok none
  else if 4 ≤ toks.length then
    match pyIntE (toks.getD 1 "") with
    | .error e => .error e
    | .ok total =>
      match pyIntE (toks.getD 2 "") with
      | .error e => .error e
      | .ok used =>
        match pyIntE (toks.getD 3 "") with
        | .error e => .error e
        | .ok freeKb =>
          .ok (some
            { total_mb := (total.fdiv 1024).fdiv 1024
              used_mb := (used.fdiv 1024).fdiv 1024
              free_mb := (freeKb.fdiv 1024).fdiv 1024
              percent := if 0 < total then ((used : ℚ) / (total : ℚ)) * 100 else 0 })
  else .ok none

/-- Python `tok.endswith(pct)` for the one-character percent suffix: the
last character is `%`. -/
def endsWithPct (tok : String) : Bool :=
  match tok.toList.reverse with
  | [] => false
  | c :: _ => c == '%'

/-- Percent column parse shared by the root-disk and partition lines:
`int(tok.rstrip(pct)) if tok.endswith(pct) else 0`. -/
def parsePctColE (tok : String) : Except String ℤ :=
  if endsWithPct tok then pyIntE (rstripPct tok) else .ok 0

/-- Disk parse of `_get_system_info` (lines 306-315). -/
def parseDiskE (toks : List String) : Except String (Option DiskInfo) :=
  if toks.isEmpty then .ok none
  else if 5 ≤ toks.length then
    match parsePctColE (toks.getD 4 "") with
    | .error e => .error e
    | .ok pct =>
      .ok (some
        { total := toks.getD 1 "", used := toks.getD 2 ""
          available := toks.getD 3 "", percent := pct })
  else .ok none

/-- Partition-lines parse of `_get_system_info` (lines 321-337); each
qualifying line's percent column `int()` may raise, aborting the whole
collection. -/
def parsePartsE : List (List String) → Except String (List PartitionInfo)
  | [] => .ok []
  | line :: rest =>
    if line.isEmpty then parsePartsE rest
    else if 6 ≤ line.length then
      match parsePctColE (line.getD 4 "") with
      | .error e => .error e
      | .ok pct =>
        match parsePartsE rest with
        | .error e => .error e
        | .ok ps =>
          .ok ({ device := line.getD 0 "", mountpoint := line.getD 5 ""
                 fstype := "unknown"
                 usage := { total := line.getD 1 "", used := line.getD 2 ""
                            available := line.getD 3 "", percent := pct } } :: ps)
    else parsePartsE rest

/-- Process-lines parse of `_get_system_info` (lines 343-358): the inner
`try/except (ValueError, IndexError): continue` makes each line's parse
failure skip just that line — this parse never raises. -/
def parseProcs : List (List String) → List ProcEntry
  | [] => []
  | line :: rest =>
    if line.isEmpty then parseProcs rest
    else if 11 ≤ line.length then
      match pyInt? (line.getD 1 ""), pyFloat? (line.getD 2 ""), pyFloat? (line.getD 3 "") with
      | some pid, some cpu, some mem =>
        { pid := pid, name := (line.getD 10 "").take 20
          cpu_percent := cpu, memory_percent := mem, procStatus := "R" } :: parseProcs rest
      | _, _, _ => parseProcs rest
    else parseProcs rest

/-- Load-average parse of `_get_system_info` (lines 366-371):
`float(load_parts[0])` on nonempty output may raise. -/
def parseLoadE (toks : List String) : Except String ℚ :=
  match toks with
  | [] => .ok 0
  | t :: _ => pyFloatE t

/-- The all-default dict returned by `_get_system_info`'s `except` branch
(lines 385-395). -/
def zeroSysInfo (e : String) : SysInfo :=
  { cpu_percent := 0, memory_percent := 0, disk_percent := 0, load_avg := 0
    memory_info := none, disk_info := none
    disk_partitions := [], processes := [], err := some e }

/-- Body of `_get_system_info` inside its `try`: the six parses run in
source order and the first raised exception aborts the rest. -/
def getSystemInfoE (o : SysOutputs) : Except String SysInfo :=
  match parseCpuE o.cpuOut with
  | .error e => .error e
  | .ok cpu =>
    match parseMemE o.memOut with
    | .error e => .error e
    | .ok mem =>
      match parseDiskE o.diskOut with
      | .error e => .error e
      | .ok disk =>
        match parsePartsE o.partLines with
        | .error e => .error e
        | .ok parts =>
          match parseLoadE o.loadOut with
          | .error e => .error e
          | .ok load =>
            .ok { cpu_percent := cpu
                  memory_percent := (mem.map MemInfo.percent).getD 0
                  disk_percent := (disk.map DiskInfo.percent).getD 0
                  load_avg := load
                  memory_info := mem, disk_info := disk
                  disk_partitions := parts
                  processes := parseProcs o.procLines
                  err := none }

/-- `ServerDiscovery._get_system_info`: the `try` body, with the blanket
`except` catching any raised `ValueError` and returning the all-default
dict carrying an `error` key. -/
def getSystemInfo (o : SysOutputs) : SysInfo :=
  match getSystemInfoE o with
  | .ok i => i
  | .error e => zeroSysInfo e

/-! ## `ServerDiscovery` registry state (src/core/server_discovery.py) -/

/-- JSON-style value stored in a registry entry dict; nested `info` dicts
carry string-valued fields (their inner values are opaque to the claims,
abstracted to strings). -/
inductive Val where
  | str (s : String)
  | boolV (b : Bool)
  | nil
  | info (fields : List (String × String))
deriving DecidableEq, Repr

/-- A Python dict modelled as an insertion-ordered association list. -/
abbrev Items := List (String × Val)

/-- Python dict assignment `d[k] = v` on an association list: replace the
value in place when the key exists, otherwise append. -/
def upsert (l : List (String × α)) (k : String) (v : α) : List (String × α) :=
  if l.any (fun kv => kv.1 == k) then
    l.map (fun kv => if kv.1 == k then (k, v) else kv)
  else l ++ [(k, v)]

/-- `d.get(k)` / first occurrence lookup on an association list. -/
def lookupItem (l : List (String × α)) (k : String) : Option α :=
  (l.find? (fun kv => kv.1 == k)).map (fun kv => kv.2)

/-- The mutable state of a `ServerDiscovery` instance: `discovered_servers`,
`connected_servers`, `network_ranges`, `scanning`. -/
structure SD where
  discovered_servers : List (String × Items)
  connected_servers : List (String × Items)
  network_ranges : List String
  scanning : Bool
deriving DecidableEq, Repr

/-- The `connected_servers[ip]` dict built by `connect_to_server`
(lines 143-150); the merged server/system info dict is an input since it
comes from remote command output. -/
def connectEntry (username : String) (password : Option String)
    (server_info : List (String × String)) (now : String) : Items :=
  [("ssh_connected", .boolV true),
   ("username", .str username),
   ("password", match password with | some p => .str p | none => .nil),
   ("info", .info server_info),
   ("connected_at", .str now),
   ("last_check", .str now)]

/-- `ServerDiscovery.connect_to_server` (lines 127-161): `sshOk` is the
outcome of `test_ssh_connection`; on success the connected entry is stored
and a pre-existing discovered record is marked `ssh_connected` with its
`info` refreshed; on failure nothing changes. -/
def connect_to_server (sd : SD) (ip username : String) (password : Option String)
    (sshOk : Bool) (server_info : List (String × String)) (now : String) : SD × Bool :=
  if sshOk then
    ({ sd with
       connected_servers := upsert sd.connected_servers ip
         (connectEntry username password server_info now)
       discovered_servers :=
         if sd.discovered_servers.any (fun kv => kv.1 == ip) then
           sd.discovered_servers.map (fun kv =>
             if kv.1 == ip then
               (kv.1, upsert (upsert kv.2 "ssh_connected" (.boolV true))
                        "info" (.info server_info))
             else kv)
         else sd.discovered_servers }, true)
  else (sd, false)

/-- `ServerDiscovery.disconnect_from_server` (lines 204-214): deletes the
`connected_servers` entry and, when a discovered record exists, sets its
`ssh_connected` to `False`; returns `False` when not connected. -/
def disconnect_from_server (sd : SD) (ip : String) : SD × Bool :=
  if sd.connected_servers.any (fun kv => kv.1 == ip) then
    ({ sd with
       connected_servers := sd.connected_servers.filter (fun kv => kv.1 != ip)
       discovered_servers :=
         if sd.discovered_servers.any (fun kv => kv.1 == ip) then
           sd.discovered_servers.map (fun kv =>
             if kv.1 == ip then (kv.1, upsert kv.2 "ssh_connected" (.boolV false))
             else kv)
         else sd.discovered_servers }, true)
  else (sd, false)

/-- The config dict written by `save_configuration` (lines 397-405). -/
structure SavedConfig where
  discovered_servers : List (String × Items)
  connected_servers : List (String × Items)
  network_ranges : List String
  last_updated : String
deriving DecidableEq, Repr

/-- `ServerDiscovery.save_configuration` (lines 397-414): serialized
content; each connected entry keeps every item whose key is not
`password`. -/
def save_configuration (sd : SD) (now : String) : SavedConfig :=
  { discovered_servers := sd.discovered_servers
    connected_servers := sd.connected_servers.map
      (fun kv => (kv.1, kv.2.filter (fun f => f.1 != "password")))
    network_ranges := sd.network_ranges
    last_updated := now }

/-- What reading the configuration file can yield: no file, a file whose
`json.load` raises, or a parsed config whose three keys are each optional
(`config.get` with defaults). -/
inductive FileRead where
  | missing
  | malformed
  | parsed (discovered : Option (List (String × Items)))
           (connected : Option (List (String × Items)))
           (ranges : Option (List String))
deriving DecidableEq, Repr

/-- `ServerDiscovery.load_configuration` (lines 416-434): returns `False`
with the state untouched when the file is missing (or unreadable); on a
parsed file, missing keys default to `{}`/`{}`/the current ranges. -/
def load_configuration (sd : SD) (file : FileRead) : SD × Bool :=
  match file with
  | .missing => (sd, false)
  | .malformed => (sd, false)
  | .parsed d c r =>
    ({ sd with
       discovered_servers := d.getD []
       connected_servers := c.getD []
       network_ranges := r.getD sd.network_ranges }, true)

/-! ## `ServerDiscovery.scan_network` (lines 31-88) and `stop_scanning` -/

/-- The per-range scan loop of `scan_network` (lines 62-79): iterate over
the hosts of the range in order; before dispatching each probe the
`scanning` flag is checked (`stop i = true` means `stop_scanning` has run
by the time iteration `i` starts) and the loop breaks; a dispatched probe
for a live host adds its address to the results. Returns the keys of the
`results` dict. -/
def scan_loop (ping : String → Bool) (stop : ℕ → Bool) :
    List String → ℕ → List String
  | [], _ => []
  | ip :: rest, i =>
    if stop i then []
    else (if ping ip then [ip] else []) ++ scan_loop ping stop rest (i + 1)

/-- A full, uninterrupted `scan_network` over one range: no stop signal. -/
def scan_network (ping : String → Bool) (hosts : List String) : List String :=
  scan_loop ping (fun _ => false) hosts 0

/-- Number of loop iterations performed before the stop flag is first
observed, starting at index `i` with `n` hosts remaining. -/
def stopIndex (stop : ℕ → Bool) : ℕ → ℕ → ℕ
  | _, 0 => 0
  | i, n + 1 => if stop i then 0 else stopIndex stop (i + 1) n + 1

/-! ## `NetworkDiscovery` (src/core/network_discovery.py) -/

/-- `memory_usage` dict of `_get_remote_memory_usage`. -/
structure RemoteMem where
  total_mb : ℤ
  used_mb : ℤ
  free_mb : ℤ
  percent : ℚ
deriving DecidableEq, Repr

/-- `disk_usage` dict of `_get_remote_disk_usage`. -/
structure RemoteDisk where
  filesystem : String
  total : String
  used : String
  available : String
  percent : ℤ
deriving DecidableEq, Repr

/-- Tokenised stdout of the commands run during one `get_server_status`
cycle; `none` for a command whose `exec_command`/read raised before
producing output. -/
structure RemoteOutputs where
  cpuOut : Option String
  memOut : Option (List String)
  diskOut : Option (List String)
  loadOut : Option (List String)
  uptimeOut : Option String
  netOut : Option String
deriving DecidableEq, Repr

/-- `NetworkDiscovery._get_remote_cpu_usage` (lines 179-186): the stripped
stdout of the `top`-pipeline is returned through `float(...)` directly
(`float(cpu_str) if cpu_str else 0.0`); any exception yields `0.0`. -/
def getRemoteCpuUsage (out : Option String) : ℚ :=
  match out with
  | none => 0
  | some s => if s = "" then 0 else (pyFloat? s).getD 0

/-- `NetworkDiscovery._get_remote_memory_usage` (lines 188-206): all of
`int(parts[1..3])` must succeed on a line of at least 4 tokens, otherwise
the `except` branch returns the zero dict. -/
def getRemoteMemoryUsage (out : Option (List String)) : RemoteMem :=
  match out with
  | none => { total_mb := 0, used_mb := 0, free_mb := 0, percent := 0 }
  | some toks =>
    if 4 ≤ toks.length then
      match pyInt? (toks.getD 1 ""), pyInt? (toks.getD 2 ""), pyInt? (toks.getD 3 "") with
      | some total, some used, some freeMb =>
        { total_mb := total, used_mb := used, free_mb := freeMb
          percent := if 0 < total then ((used : ℚ) / (total : ℚ)) * 100 else 0 }
      | _, _, _ => { total_mb := 0, used_mb := 0, free_mb := 0, percent := 0 }
    else { total_mb := 0, used_mb := 0, free_mb := 0, percent := 0 }

/-- Default dict of `_get_remote_disk_usage`'s `except` branch. -/
def defaultRemoteDisk : RemoteDisk :=
  { filesystem := "Unknown", total := "0", used := "0", available := "0", percent := 0 }

/-- `NetworkDiscovery._get_remote_disk_usage` (lines 208-223): note that
unlike `ServerDiscovery`, the percent column is `int(parts[4].rstrip(pct))`
with no `endswith` guard; any failure yields the default dict. -/
def getRemoteDiskUsage (out : Option (List String)) : RemoteDisk :=
  match out with
  | none => defaultRemoteDisk
  | some toks =>
    if 5 ≤ toks.length then
      match pyInt? (rstripPct (toks.getD 4 "")) with
      | some pct =>
        { filesystem := toks.getD 0 "", total := toks.getD 1 ""
          used := toks.getD 2 "", available := toks.getD 3 "", percent := pct }
      | none => defaultRemoteDisk
    else defaultRemoteDisk

/-- `NetworkDiscovery._get_remote_load_average` (lines 225-233): the three
loadavg fields parsed with `float`; a missing token raises `IndexError`
and is modelled by `pyFloat?` failing on the empty default. -/
def getRemoteLoadAverage (out : Option (List String)) : List ℚ :=
  match out with
  | none => [0, 0, 0]
  | some toks =>
    match pyFloat? (toks.getD 0 ""), pyFloat? (toks.getD 1 ""), pyFloat? (toks.getD 2 "") with
    | some a, some b, some c => [a, b, c]
    | _, _, _ => [0, 0, 0]

/-- `NetworkDiscovery._get_remote_uptime` (lines 235-241). -/
def getRemoteUptime (out : Option String) : String :=
  match out with
  | none => "Unknown"
  | some s => s

/-- `NetworkDiscovery._get_remote_network_info` (lines 243-249). -/
def getRemoteNetworkInfo (out : Option String) : String :=
  match out with
  | none => "Unknown"
  | some s => s

/-- The status dict assembled by `get_server_status` (lines 161-170): every
field is parsed from the outputs of the same collection cycle. -/
structure ServerStatus where
  ip : String
  cpu_usage : ℚ
  memory_usage : RemoteMem
  disk_usage : RemoteDisk
  load_average : List ℚ
  uptime : String
  network_interfaces : String
deriving DecidableEq, Repr

/-- The complete status built from one cycle's channel outputs. -/
def statusOf (ip : String) (o : RemoteOutputs) : ServerStatus :=
  { ip := ip
    cpu_usage := getRemoteCpuUsage o.cpuOut
    memory_usage := getRemoteMemoryUsage o.memOut
    disk_usage := getRemoteDiskUsage o.diskOut
    load_average := getRemoteLoadAverage o.loadOut
    uptime := getRemoteUptime o.uptimeOut
    network_interfaces := getRemoteNetworkInfo o.netOut }

/-- `NetworkDiscovery.get_server_status` (lines 143-177): `none` when the
ip is not in `accessible_servers` or the SSH connection itself fails
(`chan ip = none`); otherwise the complete status of this cycle. -/
def get_server_status (accessible : List String)
    (chan : String → Option RemoteOutputs) (ip : String) : Option ServerStatus :=
  if ip ∈ accessible then (chan ip).map (statusOf ip) else none

/-- One pass of the body of `_monitor_loop` (lines 266-280) over a suffix
of the accessible list: `scan_results[ip] = status` only when
`get_server_status` returned a status. -/
def monitorFold (accessible : List String) (chan : String → Option RemoteOutputs)
    (l : List String) (results : String → Option ServerStatus) :
    String → Option ServerStatus :=
  match l with
  | [] => results
  | ip :: rest =>
    match get_server_status accessible chan ip with
    | some s =>
      monitorFold accessible chan rest (fun q => if q = ip then some s else results q)
    | none => monitorFold accessible chan rest results

/-- One tick of `NetworkDiscovery._monitor_loop`: iterate over the
accessible servers, storing each successfully collected status into
`scan_results`. -/
def monitorTick (accessible : List String) (chan : String → Option RemoteOutputs)
    (results : String → Option ServerStatus) : String → Option ServerStatus :=
  monitorFold accessible chan accessible results

/-! ## `QuickNetworkScanner.quick_scan` (src/utils/quick_network_scanner.py:17-79) -/

/-- The final-octet values enumerated by the loop
`for i in range(start_ip, min(start_ip + max_ips, 255))`. -/
def quick_scan_range (start_ip max_ips : ℕ) : List ℕ :=
  List.range' start_ip (min (start_ip + max_ips) 255 - start_ip)

/-- The octets actually probed by `quick_scan`: the enumerated range minus
the machine's own address (the `hostname -I` skip). -/
def quick_scan_probed (isSelf : ℕ → Bool) (start_ip max_ips : ℕ) : List ℕ :=
  (quick_scan_range start_ip max_ips).filter (fun i => !isSelf i)

/-- `QuickNetworkScanner.quick_scan`: discovered octets are the probed ones
whose SSH test exits 0. -/
def quick_scan (sshOk isSelf : ℕ → Bool) (start_ip max_ips : ℕ) : List ℕ :=
  (quick_scan_probed isSelf start_ip max_ips).filter sshOk

/-! ## Helper lemmas -/

theorem scan_loop_no_stop (ping : String → Bool) :
    ∀ (hosts : List String) (i : ℕ),
      scan_loop ping (fun _ => false) hosts i = hosts.filter ping := by
  intro hosts
  induction hosts with
  | nil => intro i; rfl
  | cons ip rest ih =>
    intro i
    cases h : ping ip <;> simp [scan_loop, List.filter_cons, h, ih (i + 1)]

theorem scan_loop_stop_eq (ping : String → Bool) (stop : ℕ → Bool) :
    ∀ (hosts : List String) (i : ℕ),
      scan_loop ping stop hosts i =
        (hosts.take (stopIndex stop i hosts.length)).filter ping := by
  intro hosts
  induction hosts with
  | nil => intro i; rfl
  | cons ip rest ih =>
    intro i
    by_cases h : stop i
    · simp [scan_loop, stopIndex, h]
    · cases hp : ping ip <;>
        simp [scan_loop, stopIndex, h, hp, ih (i + 1), List.filter_cons]

theorem stopIndex_not_stopped (stop : ℕ → Bool) :
    ∀ (n i j : ℕ), j < stopIndex stop i n → stop (i + j) = false := by
  intro n
  induction n with
  | zero => intro i j h; simp [stopIndex] at h
  | succ n ih =>
    intro i j h
    by_cases hs : stop i
    · simp [stopIndex, hs] at h
    · have hs' : stop i = false := by simpa using hs
      cases j with
      | zero => simpa using hs'
      | succ j =>
        have hj : j < stopIndex stop (i + 1) n := by
          simp only [stopIndex, hs'] at h
          simp at h
          omega
        have := ih (i + 1) j hj
        have harith : i + 1 + j = i + (j + 1) := by omega
        rwa [harith] at this

theorem any_key_iff (k : String) (l : List (String × α)) :
    l.any (fun kv => kv.1 == k) = true ↔ k ∈ l.map Prod.fst := by
  simp only [List.any_eq_true, List.mem_map, beq_iff_eq]

theorem upsert_keys (k : String) (v : α) (l : List (String × α)) :
    (upsert l k v).map Prod.fst =
      if l.any (fun kv => kv.1 == k) then l.map Prod.fst
      else l.map Prod.fst ++ [k] := by
  by_cases h : l.any (fun kv => kv.1 == k)
  · simp only [upsert, h, if_true, List.map_map]
    refine List.map_congr_left ?_
    intro kv _
    by_cases hk : kv.1 = k
    · simp [Function.comp_apply, hk]
    · simp [Function.comp_apply, hk]
  · simp [upsert, h]

theorem upsert_keys_nodup (k : String) (v : α) (l : List (String × α))
    (h : (l.map Prod.fst).Nodup) : ((upsert l k v).map Prod.fst).Nodup := by
  rw [upsert_keys]
  by_cases ha : l.any (fun kv => kv.1 == k)
  · simpa [ha] using h
  · have hk : k ∉ l.map Prod.fst := by
      intro hmem
      exact ha ((any_key_iff k l).mpr hmem)
    rw [if_neg ha]
    rw [List.nodup_append]
    refine ⟨h, List.nodup_singleton k, ?_⟩
    intro a hal hak
    simp only [List.mem_singleton] at hak
    exact hk (hak ▸ hal)

theorem mem_upsert_keys (k : String) (v : α) (l : List (String × α)) :
    k ∈ (upsert l k v).map Prod.fst := by
  rw [upsert_keys]
  by_cases ha : l.any (fun kv => kv.1 == k)
  · simpa [ha] using (any_key_iff k l).mp ha
  · simp [ha]

theorem lookupItem_replace (k : String) (v : α) :
    ∀ (l : List (String × α)), l.any (fun kv => kv.1 == k) = true →
      lookupItem (l.map (fun kv => if kv.1 == k then (k, v) else kv)) k = some v := by
  intro l
  induction l with
  | nil => intro h; simp at h
  | cons kv rest ih =>
    intro h
    by_cases hk : (kv.1 == k) = true
    · simp only [List.map_cons, hk, if_true, lookupItem]
      rw [List.find?_cons_of_pos _ (by simp)]
      rfl
    · have hr : rest.any (fun kv => kv.1 == k) = true := by
        simpa [List.any_cons, hk] using h
      simp only [List.map_cons, hk, if_false, lookupItem]
      rw [List.find?_cons_of_neg _ (by simpa using hk)]
      simpa [lookupItem] using ih hr

theorem lookupItem_append_new (k : String) (v : α) :
    ∀ (l : List (String × α)), l.any (fun kv => kv.1 == k) = false →
      lookupItem (l ++ [(k, v)]) k = some v := by
  intro l
  induction l with
  | nil =>
    intro _
    simp only [List.nil_append, lookupItem]
    rw [List.find?_cons_of_pos _ (by simp)]
    rfl
  | cons kv rest ih =>
    intro h
    simp only [List.any_cons, Bool.or_eq_false_iff] at h
    simp only [List.cons_append, lookupItem]
    rw [List.find?_cons_of_neg _ (by simpa using h.1)]
    simpa [lookupItem] using ih h.2

theorem lookupItem_upsert (k : String) (v : α) (l : List (String × α)) :
    lookupItem (upsert l k v) k = some v := by
  cases h : l.any (fun kv => kv.1 == k) with
  | true => simpa [upsert, h] using lookupItem_replace k v l h
  | false => simpa [upsert, h] using lookupItem_append_new k v l h

theorem monitorFold_cases (accessible : List String)
    (chan : String → Option RemoteOutputs) :
    ∀ (l : List String) (results : String → Option ServerStatus) (q : String),
      monitorFold accessible chan l results q = results q ∨
      ∃ o, chan q = some o ∧
        monitorFold accessible chan l results q = some (statusOf q o) := by
  intro l
  induction l with
  | nil => intro results q; left; rfl
  | cons ip rest ih =>
    intro results q
    by_cases hmem : ip ∈ accessible
    · cases ho : chan ip with
      | none =>
        simpa [monitorFold, get_server_status, hmem, ho] using ih results q
      | some o =>
        rcases ih (fun q2 => if q2 = ip then some (statusOf ip o) else results q2) q with
          h | ⟨o2, ho2, h⟩
        · by_cases hq : q = ip
          · right
            refine ⟨o, by rw [hq]; exact ho, ?_⟩
            simp only [monitorFold, get_server_status, hmem, if_true, ho, Option.map_some']
            rw [h, hq]
            simp
          · left
            simp only [monitorFold, get_server_status, hmem, if_true, ho, Option.map_some']
            rw [h]
            simp [hq]
        · right
          refine ⟨o2, ho2, ?_⟩
          simp only [monitorFold, get_server_status, hmem, if_true, ho, Option.map_some']
          exact h
    · simpa [monitorFold, get_server_status, hmem] using ih results q

/-! ## Claim theorems -/

/-- C2: for every host, the stored `scan_results` snapshot after a
monitoring tick is either exactly the previously stored snapshot
(in particular whenever that host's collection cycle failed, i.e.
`chan q = none` or the host is not accessible), or exactly the complete
`statusOf` built from that single cycle's channel outputs — never a mix of
fields from two different cycles. -/
theorem C2_atomic_snapshot_replace (accessible : List String)
    (chan : String → Option RemoteOutputs)
    (results : String → Option ServerStatus) (q : String) :
    monitorTick accessible chan results q = results q ∨
    ∃ o, chan q = some o ∧
      monitorTick accessible chan results q = some (statusOf q o) :=
  monitorFold_cases accessible chan accessible results q

/-- C3: an uninterrupted sweep returns exactly the set of addresses that
respond to the liveness probe — an address is in the result iff it is in
the scanned range and its probe succeeded — and the result is
permutation-invariant in the enumeration order (the only thing the worker
pool size can change), so the returned set is independent of the
concurrency level. -/
theorem C3_sweep_exact (ping : String → Bool) (hosts : List String) :
    (∀ ip, ip ∈ scan_network ping hosts ↔ ip ∈ hosts ∧ ping ip = true) ∧
    (∀ hosts2, hosts.Perm hosts2 →
      (scan_network ping hosts).Perm (scan_network ping hosts2)) := by
  constructor
  · intro ip
    simp [scan_network, scan_loop_no_stop, List.mem_filter]
  · intro hosts2 hperm
    simpa [scan_network, scan_loop_no_stop] using hperm.filter ping

/-- A probe predicate used to instantiate the sweep theorem: exactly one
address of the synthetic range responds. -/
def pingOnly2 : String → Bool := fun ip => ip == "10.0.0.2"

/-- The synthetic scanned range and a reordering of it. -/
def hostsABC : List String := ["10.0.0.1", "10.0.0.2", "10.0.0.3"]

/-- The same synthetic range enumerated in the reverse order. -/
def hostsCBA : List String := ["10.0.0.3", "10.0.0.2", "10.0.0.1"]

/-- C3 witness: the sweep theorem evaluated on a 3-address range with one
responding host and a permuted enumeration order. -/
theorem C3_sweep_exact_witness :
    ("10.0.0.2" ∈ scan_network pingOnly2 hostsABC ↔
      "10.0.0.2" ∈ hostsABC ∧ pingOnly2 "10.0.0.2" = true) ∧
    (scan_network pingOnly2 hostsABC).Perm (scan_network pingOnly2 hostsCBA) :=
  ⟨(C3_sweep_exact pingOnly2 hostsABC).1 "10.0.0.2",
   (C3_sweep_exact pingOnly2 hostsABC).2 hostsCBA (by decide)⟩

/-- C6: with a stop signal first observed before iteration
`stopIndex stop 0 hosts.length`, the sweep result equals the filter of
exactly the prefix of hosts probed before the stop — no probe is
dispatched once the stop flag is seen (nothing beyond the prefix can
appear), and every responding address probed before the stop is still in
the returned result; all iterations that did run saw the flag unset. -/
theorem C6_stop_scanning (ping : String → Bool) (stop : ℕ → Bool)
    (hosts : List String) :
    scan_loop ping stop hosts 0 =
      (hosts.take (stopIndex stop 0 hosts.length)).filter ping ∧
    (List.range (stopIndex stop 0 hosts.length)).all (fun j => !stop j) = true := by
  refine ⟨scan_loop_stop_eq ping stop hosts 0, ?_⟩
  simp only [List.all_eq_true, List.mem_range, Bool.not_eq_true']
  intro j hj
  simpa using stopIndex_not_stopped stop hosts.length 0 j hj

/-- C9: every octet probed by `quick_scan` lies in
`[start_ip, min(start_ip + max_ips - 1, 254)]` — at least `start_ip`,
at most `254`, and strictly below `start_ip + max_ips` — and at most
`max_ips` octets are probed, however large the range is. -/
theorem C9_quick_scan_bounds (isSelf : ℕ → Bool) (start_ip max_ips : ℕ) :
    (∀ i ∈ quick_scan_probed isSelf start_ip max_ips,
       start_ip ≤ i ∧ i ≤ 254 ∧ i < start_ip + max_ips) ∧
    (quick_scan_probed isSelf start_ip max_ips).length ≤ max_ips := by
  constructor
  · intro i hi
    have hr : i ∈ quick_scan_range start_ip max_ips := (List.mem_filter.mp hi).1
    have hb := List.mem_range'_1.mp hr
    refine ⟨hb.1, ?_, ?_⟩ <;> omega
  · calc (quick_scan_probed isSelf start_ip max_ips).length
        ≤ (quick_scan_range start_ip max_ips).length :=
          List.length_filter_le _ _
      _ = min (start_ip + max_ips) 255 - start_ip := List.length_range' ..
      _ ≤ max_ips := by omega

/-- An address-is-self predicate for the witness: no probed address is the
scanning machine itself. -/
def neverSelf : ℕ → Bool := fun _ => false

/-- C9 witness: a batch starting at offset 250 with a cap of 10 probes
octet 254 and nothing beyond it. -/
theorem C9_quick_scan_bounds_witness :
    (254 ∈ quick_scan_probed neverSelf 250 10) ∧
    (250 ≤ 254 ∧ 254 ≤ 254 ∧ 254 < 250 + 10) :=
  ⟨by decide, (C9_quick_scan_bounds neverSelf 250 10).1 254 (by decide)⟩

/-- C10: loading a configuration when the file does not exist returns
`False` and leaves the discovered-server map, the connected-server map,
and the configured network ranges all unchanged. -/
theorem C10_load_missing_noop (sd : SD) :
    (load_configuration sd .missing).2 = false ∧
    (load_configuration sd .missing).1.discovered_servers = sd.discovered_servers ∧
    (load_configuration sd .missing).1.connected_servers = sd.connected_servers ∧
    (load_configuration sd .missing).1.network_ranges = sd.network_ranges ∧
    (load_configuration sd .missing).1 = sd :=
  ⟨rfl, rfl, rfl, rfl, rfl⟩

/-- Concrete sub-command outputs in which the mpstat line has its full 12
fields but a non-numeric idle token, while the memory and disk outputs are
perfectly well-formed. -/
def sysOutputsBad : SysOutputs :=
  { cpuOut := ["Average:", "all", "1", "2", "3", "4", "5", "6", "7", "8", "9", "n/a"]
    memOut := ["Mem:", "1000", "500", "500"]
    diskOut := ["/dev/sda1", "100G", "50G", "50G", "50%"]
    partLines := []
    procLines := []
    loadOut := ["0.5"] }

/-- C1 counterexample: a malformed (non-numeric) idle token in the CPU
sub-command output does not merely zero the CPU field — the raised
ValueError escapes to the blanket except of `_get_system_info`, so the
well-formed memory and disk sub-outputs (whose standalone parses yield
50 percent each) are ALSO returned as 0, and the snapshot carries an
error marker rather than being a plain successful snapshot. -/
theorem C1_counterexample :
    parseMemE sysOutputsBad.memOut =
      .ok (some { total_mb := 0, used_mb := 0, free_mb := 0, percent := 50 }) ∧
    parseDiskE sysOutputsBad.diskOut =
      .ok (some { total := "100G", used := "50G", available := "50G", percent := 50 }) ∧
    (getSystemInfo sysOutputsBad).memory_percent = 0 ∧
    (getSystemInfo sysOutputsBad).disk_percent = 0 ∧
    (getSystemInfo sysOutputsBad).err = some "ValueError" := by
  refine ⟨?_, ?_, ?_, ?_, ?_⟩ <;>
    simp [sysOutputsBad, getSystemInfo, getSystemInfoE, parseCpuE, parseMemE,
      parseDiskE, parsePartsE, parseProcs, parseLoadE, parsePctColE, endsWithPct, pyFloatE,
      pyIntE, pyFloat?, pyInt?, parseDecimal?, parseDigits?, digitVal?,
      rstripPct, zeroSysInfo, String.toList, Int.fdiv] <;>
    norm_num

/-- C1 (amended): parse degradation in `_get_system_info` is local only
for truncated outputs (the per-field parsers return their zero/default on
too-few fields without raising): either no numeric conversion raised, and
then every field of the returned snapshot equals exactly its own
sub-command's local parse with no error marker, or some numeric conversion
raised and the whole snapshot is the all-zero/default dict with an error
marker (the call itself still returns a snapshot, never an exception). -/
theorem C1_parse_locality (o : SysOutputs) :
    ((getSystemInfo o).err = none ∧
     parseCpuE o.cpuOut = .ok (getSystemInfo o).cpu_percent ∧
     parseMemE o.memOut = .ok (getSystemInfo o).memory_info ∧
     parseDiskE o.diskOut = .ok (getSystemInfo o).disk_info ∧
     parsePartsE o.partLines = .ok (getSystemInfo o).disk_partitions ∧
     parseLoadE o.loadOut = .ok (getSystemInfo o).load_avg ∧
     (getSystemInfo o).processes = parseProcs o.procLines ∧
     (getSystemInfo o).memory_percent =
       ((getSystemInfo o).memory_info.map MemInfo.percent).getD 0 ∧
     (getSystemInfo o).disk_percent =
       ((getSystemInfo o).disk_info.map DiskInfo.percent).getD 0) ∨
    ∃ e, getSystemInfo o = zeroSysInfo e := by
  rcases h1 : parseCpuE o.cpuOut with e1 | cpu
  · exact Or.inr ⟨e1, by simp [getSystemInfo, getSystemInfoE, h1]⟩
  rcases h2 : parseMemE o.memOut with e2 | mem
  · exact Or.inr ⟨e2, by simp [getSystemInfo, getSystemInfoE, h1, h2]⟩
  rcases h3 : parseDiskE o.diskOut with e3 | disk
  · exact Or.inr ⟨e3, by simp [getSystemInfo, getSystemInfoE, h1, h2, h3]⟩
  rcases h4 : parsePartsE o.partLines with e4 | parts
  · exact Or.inr ⟨e4, by simp [getSystemInfo, getSystemInfoE, h1, h2, h3, h4]⟩
  rcases h5 : parseLoadE o.loadOut with e5 | load
  · exact Or.inr ⟨e5, by simp [getSystemInfo, getSystemInfoE, h1, h2, h3, h4, h5]⟩
  exact Or.inl (by simp [getSystemInfo, getSystemInfoE, h1, h2, h3, h4, h5])

/-- C4 counterexample: `NetworkDiscovery._get_remote_cpu_usage` reports
the field parsed from the `top` pipeline directly — for parsed value 30 it
reports 30, not `100 - 30` — so the claim that EVERY component derives
`cpuPercent = 100 - idlePercent` from the parsed field is false. -/
theorem C4_counterexample :
    getRemoteCpuUsage (some "30") = 30 ∧
    getRemoteCpuUsage (some "30") ≠ 100 - 30 := by
  have h : getRemoteCpuUsage (some "30") = 30 := by
    simp [getRemoteCpuUsage, pyFloat?, parseDecimal?, parseDigits?, digitVal?,
      String.toList]
  refine ⟨h, ?_⟩
  rw [h]
  norm_num

/-- C4 (amended): `ServerDiscovery._get_system_info` does derive
`cpuPercent = 100 - idlePercent` from the 12th mpstat field whenever that
field parses; `NetworkDiscovery._get_remote_cpu_usage`, however, reports
the value parsed from its `top` pipeline unchanged, with no
100-minus derivation. -/
theorem C4_cpu_derivation :
    (∀ (toks : List String) (q : ℚ), 12 ≤ toks.length →
       pyFloat? (toks.getD 11 "") = some q → parseCpuE toks = .ok (100 - q)) ∧
    (∀ (s : String) (q : ℚ), s ≠ "" → pyFloat? s = some q →
       getRemoteCpuUsage (some s) = q) := by
  constructor
  · intro toks q hlen hq
    have hne : toks.isEmpty = false := by
      cases toks with
      | nil => simp at hlen
      | cons a l => rfl
    simp only [List.getD, List.get?_eq_getElem?] at hq
    simp [parseCpuE, hne, hlen, pyFloatE, List.getD, hq]
  · intro s q hs hq
    simp [getRemoteCpuUsage, hs, hq]

/-- A well-formed mpstat tail line as tokenised by `_get_system_info`. -/
def mpstatToks : List String :=
  ["Average:", "all", "2.77", "8.52", "0.82", "0.00", "0.11", "0.15",
   "0.00", "0.00", "0.00", "87.62"]

/-- C4 witness: with idle 87.62 the server-discovery parse yields
`100 - 87.62`, while the network-discovery getter on parsed value 25.5
yields 25.5 itself. -/
theorem C4_cpu_derivation_witness :
    (12 ≤ mpstatToks.length ∧ pyFloat? (mpstatToks.getD 11 "") = some (8762 / 100) ∧
     parseCpuE mpstatToks = .ok (100 - 8762 / 100)) ∧
    (pyFloat? "25.5" = some (51 / 2) ∧ getRemoteCpuUsage (some "25.5") = 51 / 2) := by
  have h1 : pyFloat? (mpstatToks.getD 11 "") = some (8762 / 100) := by
    simp [mpstatToks, pyFloat?, parseDecimal?, parseDigits?, digitVal?, String.toList]
    norm_num
  have h2 : pyFloat? "25.5" = some (51 / 2) := by
    simp [pyFloat?, parseDecimal?, parseDigits?, digitVal?, String.toList]
    norm_num
  exact ⟨⟨by decide, h1, C4_cpu_derivation.1 mpstatToks (8762 / 100) (by decide) h1⟩,
         ⟨h2, C4_cpu_derivation.2 "25.5" (51 / 2) (by decide) h2⟩⟩

/-- A registry whose connected host was never in `discovered_servers`
(connected directly by address, which `connect_to_server` permits since it
only updates a discovered record when one already exists). -/
def sdOnlyConnected : SD :=
  { discovered_servers := []
    connected_servers := [("10.0.0.5", connectEntry "root" none [] "t0")]
    network_ranges := []
    scanning := false }

/-- C5 counterexample: disconnecting a connected host deletes its
`connected_servers` entry outright; when the host has no
`discovered_servers` record, no record of it remains anywhere in the
registry, refuting that disconnect never removes the host's record. -/
theorem C5_counterexample :
    (sdOnlyConnected.connected_servers.map Prod.fst = ["10.0.0.5"]) ∧
    ((disconnect_from_server sdOnlyConnected "10.0.0.5").2 = true) ∧
    ((disconnect_from_server sdOnlyConnected "10.0.0.5").1.connected_servers = []) ∧
    ((disconnect_from_server sdOnlyConnected "10.0.0.5").1.discovered_servers = []) := by
  decide

/-- C5 (amended): disconnecting a connected host returns `True`, removes
the host from `connected_servers` (so it is no longer polled), leaves the
set of discovered records unchanged, and marks the host's discovered
record — when one exists — as not SSH-connected; a connected host that was
never discovered retains no record at all. -/
theorem C5_disconnect_connected (sd : SD) (ip : String)
    (h : sd.connected_servers.any (fun kv => kv.1 == ip) = true) :
    (disconnect_from_server sd ip).2 = true ∧
    ((disconnect_from_server sd ip).1.connected_servers.all
      (fun kv => kv.1 != ip) = true) ∧
    ((disconnect_from_server sd ip).1.discovered_servers.map Prod.fst =
       sd.discovered_servers.map Prod.fst) ∧
    (((disconnect_from_server sd ip).1.discovered_servers.filter
        (fun kv => kv.1 == ip)).all
      (fun kv => lookupItem kv.2 "ssh_connected" == some (Val.boolV false)) = true) := by
  unfold disconnect_from_server
  rw [if_pos h]
  refine ⟨rfl, ?_, ?_, ?_⟩
  · simp only [List.all_eq_true]
    intro kv hkv
    exact (List.mem_filter.mp hkv).2
  · by_cases hd : sd.discovered_servers.any (fun kv => kv.1 == ip)
    · rw [if_pos hd, List.map_map]
      refine List.map_congr_left ?_
      intro kv _
      by_cases hk : kv.1 = ip <;> simp [Function.comp_apply, hk]
    · rw [if_neg hd]
  · by_cases hd : sd.discovered_servers.any (fun kv => kv.1 == ip)
    · rw [if_pos hd]
      simp only [List.all_eq_true]
      intro kv hkv
      have hm := List.mem_filter.mp hkv
      rcases List.mem_map.mp hm.1 with ⟨kv0, _, heq⟩
      by_cases hk : kv0.1 = ip
      · rw [← heq]
        simp [hk, lookupItem_upsert]
      · rw [← heq] at hm
        simp [hk] at hm
    · rw [if_neg hd]
      simp only [List.all_eq_true]
      intro kv hkv
      have hm := List.mem_filter.mp hkv
      exact absurd ((any_key_iff ip sd.discovered_servers).mpr
        (by
          rcases hm with ⟨hmem, hbeq⟩
          have : kv.1 = ip := by simpa using hbeq
          exact this ▸ List.mem_map_of_mem Prod.fst hmem)) hd

/-- A registry with both a discovered record and a connected record for
the same host, plus an unrelated discovered host. -/
def sdBoth : SD :=
  { discovered_servers :=
      [("10.0.0.7",
         [("status", Val.str "discovered"), ("ssh_connected", Val.boolV true)]),
       ("10.0.0.8",
         [("status", Val.str "discovered"), ("ssh_connected", Val.boolV false)])]
    connected_servers := [("10.0.0.7", connectEntry "root" (some "pw") [] "t0")]
    network_ranges := ["192.168.1.0/24"]
    scanning := false }

/-- C5 witness: the amended disconnect theorem evaluated on a host with
both a discovered and a connected record. -/
theorem C5_disconnect_connected_witness :
    (sdBoth.connected_servers.any (fun kv => kv.1 == "10.0.0.7") = true) ∧
    ((disconnect_from_server sdBoth "10.0.0.7").2 = true ∧
     ((disconnect_from_server sdBoth "10.0.0.7").1.connected_servers.all
       (fun kv => kv.1 != "10.0.0.7") = true) ∧
     ((disconnect_from_server sdBoth "10.0.0.7").1.discovered_servers.map Prod.fst =
        sdBoth.discovered_servers.map Prod.fst) ∧
     (((disconnect_from_server sdBoth "10.0.0.7").1.discovered_servers.filter
         (fun kv => kv.1 == "10.0.0.7")).all
       (fun kv => lookupItem kv.2 "ssh_connected" == some (Val.boolV false)) = true)) :=
  ⟨by decide, C5_disconnect_connected sdBoth "10.0.0.7" (by decide)⟩

/-- C7: connecting twice to the same address with valid credentials while
already connected leaves the connected registry with no duplicate keys,
exactly one entry for that address, and that entry is the full connected
record of the second call — the host is still in the connected state. -/
theorem C7_connect_idempotent (sd : SD) (ip u : String) (p : Option String)
    (si1 si2 : List (String × String)) (n1 n2 : String)
    (hnd : (sd.connected_servers.map Prod.fst).Nodup) :
    (((connect_to_server ((connect_to_server sd ip u p true si1 n1).1)
        ip u p true si2 n2).1.connected_servers.map Prod.fst).Nodup) ∧
    (((connect_to_server ((connect_to_server sd ip u p true si1 n1).1)
        ip u p true si2 n2).1.connected_servers.map Prod.fst).count ip = 1) ∧
    lookupItem ((connect_to_server ((connect_to_server sd ip u p true si1 n1).1)
        ip u p true si2 n2).1.connected_servers) ip =
      some (connectEntry u p si2 n2) := by
  have hc2 : ((connect_to_server ((connect_to_server sd ip u p true si1 n1).1)
      ip u p true si2 n2).1).connected_servers
      = upsert (upsert sd.connected_servers ip (connectEntry u p si1 n1)) ip
          (connectEntry u p si2 n2) := by
    simp [connect_to_server]
  rw [hc2]
  have hnd1 := upsert_keys_nodup ip (connectEntry u p si1 n1) sd.connected_servers hnd
  have hnd2 := upsert_keys_nodup ip (connectEntry u p si2 n2) _ hnd1
  have hmem := mem_upsert_keys ip (connectEntry u p si2 n2)
      (upsert sd.connected_servers ip (connectEntry u p si1 n1))
  exact ⟨hnd2, List.count_eq_one_of_mem hnd2 hmem, lookupItem_upsert ip _ _⟩

/-- An initially empty registry for the double-connect witness. -/
def sdEmpty : SD :=
  { discovered_servers := [], connected_servers := []
    network_ranges := [], scanning := false }

/-- C7 witness: double connect on an empty registry yields exactly one
connected entry. -/
theorem C7_connect_idempotent_witness :
    ((sdEmpty.connected_servers.map Prod.fst).Nodup) ∧
    ((((connect_to_server ((connect_to_server sdEmpty "10.0.0.4" "root" none true [] "t1").1)
        "10.0.0.4" "root" none true [] "t2").1.connected_servers.map Prod.fst).Nodup) ∧
     (((connect_to_server ((connect_to_server sdEmpty "10.0.0.4" "root" none true [] "t1").1)
        "10.0.0.4" "root" none true [] "t2").1.connected_servers.map Prod.fst).count "10.0.0.4" = 1) ∧
     lookupItem ((connect_to_server ((connect_to_server sdEmpty "10.0.0.4" "root" none true [] "t1").1)
        "10.0.0.4" "root" none true [] "t2").1.connected_servers) "10.0.0.4" =
       some (connectEntry "root" none [] "t2")) :=
  ⟨by decide, C7_connect_idempotent sdEmpty "10.0.0.4" "root" none [] [] "t1" "t2" (by decide)⟩

/-- C8: for every connected entry of the registry, the persisted
configuration contains an entry for the same address holding exactly the
stored items other than the password — every non-password field is kept
and the password field never appears. -/
theorem C8_save_excludes_password (sd : SD) (now ip : String) (items : Items)
    (h : (ip, items) ∈ sd.connected_servers) :
    ∃ l, (ip, l) ∈ (save_configuration sd now).connected_servers ∧
      ∀ kv : String × Val, kv ∈ l ↔ (kv ∈ items ∧ kv.1 ≠ "password") := by
  refine ⟨items.filter (fun f => f.1 != "password"), ?_, ?_⟩
  · exact List.mem_map.mpr ⟨(ip, items), h, rfl⟩
  · intro kv
    simp [List.mem_filter]

/-- A registry with one connected host storing a plaintext password. -/
def sdWithPassword : SD :=
  { discovered_servers := []
    connected_servers :=
      [("10.0.0.9", connectEntry "admin" (some "hunter2") [("hostname", "web1")] "t1")]
    network_ranges := ["192.168.1.0/24"]
    scanning := false }

/-- C8 witness: the saved configuration for a host with a stored password
keeps all fields except the password. -/
theorem C8_save_excludes_password_witness :
    (("10.0.0.9", connectEntry "admin" (some "hunter2") [("hostname", "web1")] "t1")
       ∈ sdWithPassword.connected_servers) ∧
    (∃ l, ("10.0.0.9", l) ∈ (save_configuration sdWithPassword "t2").connected_servers ∧
      ∀ kv : String × Val, kv ∈ l ↔
        (kv ∈ connectEntry "admin" (some "hunter2") [("hostname", "web1")] "t1" ∧
         kv.1 ≠ "password")) :=
  ⟨by decide,
   C8_save_excludes_password sdWithPassword "t2" "10.0.0.9"
     (connectEntry "admin" (some "hunter2") [("hostname", "web1")] "t1") (by decide)⟩
